import Mathlib

/-!
Shallow embedding of src/app.py (sc-court-scraper): the record extractor
inside scrape_county and the scan orchestrator scan_courts.

Modelling conventions:
- HTML pages are modelled by the structure BeautifulSoup queries observe:
  a page carries the result of soup.find for the search-results table and
  the list of text nodes of the document; a table carries its optional
  tbody row list and its own find_all row list; a row carries its td
  cells; a cell carries its text content and its first anchor, if any.
- Network effects (session.post plus raise_for_status) are passed in as a
  parameter net : url -> search_name -> FetchOutcome, so theorems quantify
  over every possible network behaviour.
- urllib.parse.urljoin is library code, not repository code; it is passed
  in as a parameter uj : base -> href -> absolute.
- Python str.strip and get_text(strip=True) are modelled by String.trim on
  the cell or anchor text content.
- datetime.utcnow (the queriedAt value) is an external effect; the field
  list of the response body records its key, its value is not modelled.
- The ThreadPoolExecutor/as_completed completion order is nondeterministic;
  the model folds outcomes in configuration order. Only the insertion
  order of the two mappings depends on it, never their key sets, and the
  theorems below state only order-independent facts about those mappings.
-/

namespace ScCourtScraper

/-- JSON values that occur in a serialized case record: strings and null. -/
inductive JsonVal where
  | str (s : String)
  | null
  deriving DecidableEq, Repr

/-- An anchor element inside a table cell: its text and its optional href
attribute (tag.get of href returns None when the attribute is absent). -/
structure Link where
  text : String
  href : Option String
  deriving DecidableEq, Repr

/-- A td cell: its text content and its first anchor descendant, if any
(cols[0].find of the tag a). -/
structure Cell where
  text : String
  link : Option Link
  deriving DecidableEq, Repr

/-- Python str.strip on the character list: drop whitespace from both
ends. -/
def stripChars (l : List Char) : List Char :=
  ((l.dropWhile Char.isWhitespace).reverse.dropWhile Char.isWhitespace).reverse

/-- Python str.strip, restricted to ASCII whitespace. -/
def pyStrip (s : String) : String := ⟨stripChars s.data⟩

/-- Model of get_text(strip=True) on a cell. -/
def Cell.getTextStrip (c : Cell) : String := pyStrip c.text

/-- A tr row: its td cells (row.find_all of td). -/
structure Row where
  cells : List Cell
  deriving DecidableEq, Repr

/-- The search results table: the rows of its tbody when a tbody element
exists, and the rows returned by find_all on the table itself. -/
structure Table where
  tbody : Option (List Row)
  allRows : List Row
  deriving DecidableEq, Repr

/-- src/app.py:113-114 - rows = tbody.find_all if tbody else
table.find_all. -/
def Table.locatedRows (t : Table) : List Row :=
  match t.tbody with
  | some rs => rs
  | none => t.allRows

/-- A fetched page: the result of soup.find for the table whose summary
attribute is Search Results, and the text nodes of the document. -/
structure Page where
  searchResultsTable : Option Table
  texts : List String
  deriving DecidableEq, Repr

/-- Whether the first list is a prefix of the second. -/
def listStartsWith : List Char → List Char → Bool
  | [], _ => true
  | _ :: _, [] => false
  | c :: cs, h :: hs => c == h && listStartsWith cs hs

/-- Whether the first list occurs contiguously inside the second. -/
def listContainsSub (pat : List Char) : List Char → Bool
  | [] => pat.isEmpty
  | h :: t => listStartsWith pat (h :: t) || listContainsSub pat t

/-- Case-insensitive substring containment: the semantics of searching a
text node with re.compile(pattern, re.IGNORECASE). -/
def containsCaseInsensitive (hay pat : String) : Bool :=
  listContainsSub (pat.data.map Char.toLower) (hay.data.map Char.toLower)

/-- src/app.py:100 - the no-records marker phrase. -/
def NO_RECORDS_PHRASE : String := "No records found matching your search criteria"

/-- src/app.py:98-102 - soup.find(string=re.compile(..., IGNORECASE)):
true iff some text node contains the phrase case-insensitively. -/
def Page.findNoRecordsMsg (p : Page) : Bool :=
  p.texts.any (fun t => containsCaseInsensitive t NO_RECORDS_PHRASE)

/-- One scraped record, the dict built at src/app.py:141-151. -/
structure CaseRecord where
  county : String
  caseNumber : String
  date : String
  party : String
  caseType : String
  status : String
  url : Option String
  deriving DecidableEq, Repr, Inhabited

/-- Serialization of a record: the key/value pairs of the dict literal at
src/app.py:141-151, in source order (jsonify preserves dict order). The
Python dict key for caseType is the word type. -/
def CaseRecord.toJson (r : CaseRecord) : List (String × JsonVal) :=
  [("county", .str r.county),
   ("caseNumber", .str r.caseNumber),
   ("date", .str r.date),
   ("party", .str r.party),
   ("type", .str r.caseType),
   ("status", .str r.status),
   ("url", match r.url with | some u => .str u | none => .null)]

/-- src/app.py:122-154 - conversion of one row into a record: require at
least 5 cells (else the row is skipped, src/app.py:124-125), take the case
number from the first anchor text when present else from the cell text,
absolutize the href against the source url when an anchor with an href
exists, and read date, party, type, status positionally. -/
def parseRow (county url : String) (uj : String → String → String)
    (row : Row) : Option CaseRecord :=
  let cols := row.cells
  if cols.length < 5 then none
  else
    match cols with
    | c0 :: c1 :: c2 :: c3 :: c4 :: _ =>
      let caseLink := c0.link
      let caseNumber :=
        match caseLink with
        | some l => pyStrip l.text
        | none => c0.getTextStrip
      let rawCaseUrl :=
        match caseLink with
        | some l => l.href
        | none => none
      let caseUrl :=
        match rawCaseUrl with
        | some raw => some (uj url raw)
        | none => none
      some { county := county, caseNumber := caseNumber,
             date := c1.getTextStrip, party := c2.getTextStrip,
             caseType := c3.getTextStrip, status := c4.getTextStrip,
             url := caseUrl }
    | _ => none

/-- src/app.py:116-120 - skip the header row if present: with more than
one located row drop the first, otherwise use no rows at all. -/
def extractRows (rows : List Row) : List Row :=
  if rows.length > 1 then rows.drop 1 else []

/-- src/app.py:113-156 - the extraction loop over the located rows of a
found table, accumulating the successfully converted rows in order. -/
def extractRecords (county url : String) (uj : String → String → String)
    (t : Table) : List CaseRecord :=
  (extractRows t.locatedRows).filterMap (parseRow county url uj)

/-- Outcome of session.post plus raise_for_status for one source. -/
inductive FetchOutcome where
  | ok (page : Page)
  | httpError (msg : String)
  | requestError (msg : String)
  | unexpectedError (msg : String)
  deriving DecidableEq

/-- Return value of scrape_county: a dict with county and results, or a
dict with county and error (src/app.py:72-78). -/
inductive ScrapeResult where
  | results (county : String) (records : List CaseRecord)
  | error (county : String) (msg : String)
  deriving DecidableEq, Repr

/-- src/app.py:71-167 - scrape one county. On a fetched page: a found
table goes through extraction; a missing table with the no-records phrase
returns empty results (src/app.py:103-105); a missing table without the
phrase ALSO returns empty results, the structural mismatch being only
logged as a warning (src/app.py:107-111). Fetch failures return the error
variant with the prefixed message (src/app.py:159-167). -/
def scrape_county (county url search_name : String)
    (uj : String → String → String)
    (net : String → String → FetchOutcome) : ScrapeResult :=
  match net url search_name with
  | .httpError e => .error county ("HTTP error: " ++ e)
  | .requestError e => .error county ("Connection error: " ++ e)
  | .unexpectedError e => .error county ("Unexpected error: " ++ e)
  | .ok page =>
    match page.searchResultsTable with
    | none =>
      if page.findNoRecordsMsg then
        .results county []
      else
        .results county []
    | some t => .results county (extractRecords county url uj t)

/-- src/app.py:33-38 - the static county to endpoint configuration, in
source order (Python dicts preserve insertion order). -/
def COUNTY_URLS : List (String × String) :=
  [("Clarendon", "https://www.clerkoftrialcourt.com/Clarendon/search_results.php"),
   ("Lee", "https://www.clerkoftrialcourt.com/Lee/search_results.php"),
   ("Sumter", "https://www.clerkoftrialcourt.com/Sumter/search_results.php"),
   ("Williamsburg", "https://www.clerkoftrialcourt.com/Williamsburg/search_results.php")]

/-- Python truthiness test on request.args.get: None when the parameter is
missing, and an empty string, are falsy; any other string is truthy
(src/app.py:190-191, if not search_name). -/
def isFalsyName : Option String → Bool
  | none => true
  | some s => s == ""

/-- Python str.split with no argument on the character list: cut at
whitespace runs, discarding empty pieces. The accumulator carries the
current word reversed. -/
def wordsAux : List Char → List Char → List (List Char)
  | [], acc => if acc.isEmpty then [] else [acc.reverse]
  | c :: cs, acc =>
    if c.isWhitespace then
      if acc.isEmpty then wordsAux cs [] else acc.reverse :: wordsAux cs []
    else wordsAux cs (c :: acc)

/-- Python search_name.split(). -/
def pySplit (s : String) : List String :=
  (wordsAux s.data []).map (fun w => ⟨w⟩)

/-- Python join with a single space separator. -/
def joinSpace : List String → String
  | [] => ""
  | [w] => w
  | w :: ws => w ++ " " ++ joinSpace ws

/-- src/app.py:195 - join(search_name.split()) with a single space:
split on whitespace runs discarding empties, rejoin with single spaces. -/
def normalizeName (s : String) : String :=
  joinSpace (pySplit s)

/-- An apostrophe character, by code point. -/
def SQUOTE : String := String.singleton (Char.ofNat 39)

/-- src/app.py:192 - the 400 body message, which quotes the word name in
apostrophes. -/
def MISSING_NAME_MSG : String :=
  "Missing " ++ SQUOTE ++ "name" ++ SQUOTE ++ " parameter."

/-- The 200 response body built at src/app.py:221-228: query, the full
configured county list, the per-county results mapping and the per-county
errors mapping. The code attaches the errors key only when the mapping is
nonempty; the model keeps a possibly empty list and ScanBody.fields below
records the conditional presence of the key. -/
structure ScanOk where
  query : String
  counties : List String
  results : List (String × List CaseRecord)
  errors : List (String × String)
  deriving DecidableEq, Repr

/-- A scan response body: the 400 error object or the 200 scan object. -/
inductive ScanBody where
  | errorBody (msg : String)
  | okBody (resp : ScanOk)
  deriving DecidableEq, Repr

/-- What flask returns from scan_courts: a JSON body and a status code. -/
structure HttpResponse where
  body : ScanBody
  status : Nat
  deriving DecidableEq, Repr

/-- The top-level keys of a serialized body. A 400 body has the single key
error (src/app.py:192); a 200 body has query, queriedAt, counties and
results, plus errors only when the errors mapping is nonempty
(src/app.py:221-228). -/
def ScanBody.fields : ScanBody → List String
  | .errorBody _ => ["error"]
  | .okBody resp =>
      ["query", "queriedAt", "counties", "results"] ++
        (if resp.errors.isEmpty then [] else ["errors"])

/-- src/app.py:207-219 - fold the per-county outcomes into the two
mappings: a dict with an error key goes to errors, any other goes to
results under its results list. -/
def mergeOutcomes :
    List (String × ScrapeResult) →
      List (String × List CaseRecord) × List (String × String)
  | [] => ([], [])
  | (county, r) :: rest =>
    let acc := mergeOutcomes rest
    match r with
    | .results _ records => ((county, records) :: acc.1, acc.2)
    | .error _ msg => (acc.1, (county, msg) :: acc.2)

/-- The key list of a string-keyed mapping. -/
def keys {α : Type} (m : List (String × α)) : List String := m.map Prod.fst

/-- src/app.py:184-230 - the scan endpoint: reject a falsy name with a 400
error body before any dispatch; otherwise normalize the name, run
scrape_county for every configured county, fold the outcomes into the two
mappings and answer 200 with the response object. -/
def scan_courts (name : Option String)
    (uj : String → String → String)
    (net : String → String → FetchOutcome) : HttpResponse :=
  if isFalsyName name then
    { body := .errorBody MISSING_NAME_MSG, status := 400 }
  else
    let search_name := name.getD ""
    let normalized_name := normalizeName search_name
    let outcomes := COUNTY_URLS.map
      (fun cu => (cu.1, scrape_county cu.1 cu.2 normalized_name uj net))
    let merged := mergeOutcomes outcomes
    { body := .okBody
        { query := normalized_name,
          counties := COUNTY_URLS.map Prod.fst,
          results := merged.1,
          errors := merged.2 },
      status := 200 }

/-! Concrete fixtures used by witnesses and counterexamples. -/

/-- A concrete urljoin instance for witnesses: append the relative part to
the base. The theorems themselves quantify over every join function. -/
def urljoin0 : String → String → String := fun base rel => base ++ rel

/-- The configured Lee county endpoint. -/
def LEE_URL : String := "https://www.clerkoftrialcourt.com/Lee/search_results.php"

/-- A page with no results table and no no-records phrase: the structural
mismatch shape. -/
def pageMismatch : Page :=
  { searchResultsTable := none,
    texts := ["Welcome to the county court search portal"] }

/-- A network where every source serves the structural mismatch page. -/
def netMismatch : String → String → FetchOutcome := fun _ _ => .ok pageMismatch

/-- A page with no results table whose text carries the no-records
phrase. -/
def pageNoRecords : Page :=
  { searchResultsTable := none,
    texts := ["No records found matching your search criteria."] }

/-- A network where every source answers with the no-records page. -/
def netNoRecords : String → String → FetchOutcome := fun _ _ => .ok pageNoRecords

/-- A network where every fetch fails with a connection error. -/
def netAllTimeout : String → String → FetchOutcome :=
  fun _ _ => .requestError "timed out"

/-- A plausible header row of the results table. -/
def headerRow : Row :=
  { cells := [{ text := "Case Number", link := none },
              { text := "Date Filed", link := none },
              { text := "Party", link := none },
              { text := "Type", link := none },
              { text := "Status", link := none }] }

/-- A well-formed data row whose first cell carries an anchor, as in the
reference scenario. -/
def sampleRow : Row :=
  { cells := [{ text := "2024-CP-14-0001",
                link := some { text := "2024-CP-14-0001", href := some "/case/1" } },
              { text := "01/02/2024", link := none },
              { text := "John Smith", link := none },
              { text := "Foreclosure", link := none },
              { text := "Active", link := none }] }

/-- The record extracted from sampleRow against the Lee endpoint with
urljoin0. -/
def sampleRecord : CaseRecord :=
  { county := "Lee", caseNumber := "2024-CP-14-0001", date := "01/02/2024",
    party := "John Smith", caseType := "Foreclosure", status := "Active",
    url := some "https://www.clerkoftrialcourt.com/Lee/search_results.php/case/1" }

/-- A well-formed data row with no anchor in its first cell. -/
def noLinkRow : Row :=
  { cells := [{ text := " 2023-CP-31-0100 ", link := none },
              { text := "03/04/2023", link := none },
              { text := "Jane Doe", link := none },
              { text := "Civil", link := none },
              { text := "Closed", link := none }] }

/-- A malformed row with only four cells. -/
def badRow : Row :=
  { cells := [{ text := "2022-CP-43-0200", link := none },
              { text := "05/06/2022", link := none },
              { text := "Jan Roe", link := none },
              { text := "Probate", link := none }] }

/-- A table whose find_all yields one header row and one data row. -/
def sampleTable : Table := { tbody := none, allRows := [headerRow, sampleRow] }

/-- A table whose located row set is a single well-formed data row. -/
def singleRowTable : Table := { tbody := none, allRows := [sampleRow] }

/-! Helper lemmas. -/

/-- A nonempty name parameter is truthy. -/
lemma isFalsy_some_eq_false {s : String} (hs : s ≠ "") :
    isFalsyName (some s) = false := by
  simpa [isFalsyName] using hs

/-- filterMap collapses to map when the function succeeds everywhere. -/
lemma filterMap_eq_map_of_some {α β : Type} (f : α → Option β) (g : α → β)
    (l : List α) (h : ∀ a ∈ l, f a = some (g a)) :
    l.filterMap f = l.map g := by
  induction l with
  | nil => rfl
  | cons a t ih =>
    have ha := h a (List.mem_cons_self a t)
    have iht := ih (fun b hb => h b (List.mem_cons_of_mem a hb))
    simp [List.filterMap_cons, ha, iht]

/-- A row with fewer than five cells converts to none. -/
lemma parseRow_short (county url : String) (uj : String → String → String)
    (row : Row) (h : row.cells.length < 5) :
    parseRow county url uj row = none := by
  simp only [parseRow]
  rw [if_pos h]

/-- A row with at least five cells converts successfully. -/
lemma parseRow_isSome (county url : String) (uj : String → String → String)
    (row : Row) (h : 5 ≤ row.cells.length) :
    (parseRow county url uj row).isSome = true := by
  obtain ⟨cells⟩ := row
  rcases cells with _ | ⟨c0, cells⟩
  · simp at h
  rcases cells with _ | ⟨c1, cells⟩
  · simp at h
  rcases cells with _ | ⟨c2, cells⟩
  · simp at h
  rcases cells with _ | ⟨c3, cells⟩
  · simp at h
  rcases cells with _ | ⟨c4, rest⟩
  · simp at h
  have hlen : ¬ ((⟨c0 :: c1 :: c2 :: c3 :: c4 :: rest⟩ : Row).cells.length < 5) := by
    simp only [List.length_cons]
    omega
  simp only [parseRow]
  rw [if_neg hlen]
  cases c0.link <;> simp

/-- The key multiset of the two merged mappings is exactly the key
multiset of the outcome list. -/
lemma mergeOutcomes_keys_perm (l : List (String × ScrapeResult)) :
    (keys (mergeOutcomes l).1 ++ keys (mergeOutcomes l).2).Perm (keys l) := by
  induction l with
  | nil => simp [mergeOutcomes, keys]
  | cons hd tl ih =>
    obtain ⟨county, r⟩ := hd
    cases r with
    | results c recs =>
      simpa [mergeOutcomes, keys] using ih.cons county
    | error c msg =>
      have h1 : keys (mergeOutcomes ((county, ScrapeResult.error c msg) :: tl)).1 ++
          keys (mergeOutcomes ((county, ScrapeResult.error c msg) :: tl)).2 =
          keys (mergeOutcomes tl).1 ++ county :: keys (mergeOutcomes tl).2 := by
        simp [mergeOutcomes, keys]
      rw [h1]
      have h2 : (keys ((county, ScrapeResult.error c msg) :: tl)) =
          county :: keys tl := by simp [keys]
      rw [h2]
      exact List.perm_middle.trans (ih.cons county)

/-- With nodup outcome keys, no identifier lands in both mappings. -/
lemma mergeOutcomes_disjoint_keys (l : List (String × ScrapeResult))
    (hnd : (keys l).Nodup) (c : String)
    (h1 : c ∈ keys (mergeOutcomes l).1) (h2 : c ∈ keys (mergeOutcomes l).2) :
    False := by
  have hnd2 : (keys (mergeOutcomes l).1 ++ keys (mergeOutcomes l).2).Nodup :=
    (mergeOutcomes_keys_perm l).nodup_iff.mpr hnd
  exact (List.nodup_append.mp hnd2).2.2 h1 h2

/-- With nodup outcome keys, every outcome key lands in exactly one of the
two mappings. -/
lemma mergeOutcomes_exactly_one (l : List (String × ScrapeResult))
    (hnd : (keys l).Nodup) (c : String) (hc : c ∈ keys l) :
    (c ∈ keys (mergeOutcomes l).1 ∧ c ∉ keys (mergeOutcomes l).2) ∨
    (c ∉ keys (mergeOutcomes l).1 ∧ c ∈ keys (mergeOutcomes l).2) := by
  have hmem : c ∈ keys (mergeOutcomes l).1 ++ keys (mergeOutcomes l).2 :=
    (mergeOutcomes_keys_perm l).mem_iff.mpr hc
  rcases List.mem_append.mp hmem with h1 | h2
  · exact Or.inl ⟨h1, fun h2 => mergeOutcomes_disjoint_keys l hnd c h1 h2⟩
  · exact Or.inr ⟨fun h1 => mergeOutcomes_disjoint_keys l hnd c h1 h2, h2⟩

/-- A results outcome lands in the results mapping with its record list. -/
lemma mergeOutcomes_mem_results (l : List (String × ScrapeResult))
    (county c : String) (recs : List CaseRecord)
    (h : (county, ScrapeResult.results c recs) ∈ l) :
    (county, recs) ∈ (mergeOutcomes l).1 := by
  induction l with
  | nil => cases h
  | cons hd tl ih =>
    rcases List.mem_cons.mp h with heq | hmem
    · rw [← heq]
      simp [mergeOutcomes]
    · obtain ⟨ch, rh⟩ := hd
      cases rh with
      | results c2 recs2 => simpa [mergeOutcomes] using Or.inr (ih hmem)
      | error c2 msg2 => simpa [mergeOutcomes] using ih hmem

/-- Pairing every key with a computed value keeps the key list. -/
lemma keys_map_pair {α β : Type} (l : List (String × α))
    (f : String × α → β) :
    keys (l.map (fun cu => (cu.1, f cu))) = keys l := by
  induction l with
  | nil => rfl
  | cons hd tl ih => simp [keys] at ih ⊢

/-- The configured county names are pairwise distinct. -/
lemma county_keys_nodup : (keys COUNTY_URLS).Nodup := by decide

/-! Claim theorems. -/

/-- C1: for every valid non-empty query the scan response body is the 200
scan object, its county list has length equal to the number of configured
sources, and every county in it appears as a key in exactly one of the
results mapping and the errors mapping, never both, never neither. -/
theorem scan_counties_partition (s : String) (hs : s ≠ "")
    (uj : String → String → String) (net : String → String → FetchOutcome) :
    ∃ resp : ScanOk, (scan_courts (some s) uj net).body = ScanBody.okBody resp ∧
      resp.counties.length = COUNTY_URLS.length ∧
      ∀ c ∈ resp.counties,
        (c ∈ keys resp.results ∧ c ∉ keys resp.errors) ∨
        (c ∉ keys resp.results ∧ c ∈ keys resp.errors) := by
  have hfalsy := isFalsy_some_eq_false hs
  refine ⟨{ query := normalizeName s,
            counties := COUNTY_URLS.map Prod.fst,
            results := (mergeOutcomes (COUNTY_URLS.map
              (fun cu => (cu.1, scrape_county cu.1 cu.2 (normalizeName s) uj net)))).1,
            errors := (mergeOutcomes (COUNTY_URLS.map
              (fun cu => (cu.1, scrape_county cu.1 cu.2 (normalizeName s) uj net)))).2 },
         ?_, ?_, ?_⟩
  · simp [scan_courts, hfalsy]
  · simp
  · intro c hc
    have hkeys := keys_map_pair COUNTY_URLS
      (fun cu => scrape_county cu.1 cu.2 (normalizeName s) uj net)
    have hc2 : c ∈ keys (COUNTY_URLS.map
        (fun cu => (cu.1, scrape_county cu.1 cu.2 (normalizeName s) uj net))) := by
      rw [hkeys]; exact hc
    have hnd : (keys (COUNTY_URLS.map
        (fun cu => (cu.1, scrape_county cu.1 cu.2 (normalizeName s) uj net)))).Nodup := by
      rw [hkeys]; exact county_keys_nodup
    exact mergeOutcomes_exactly_one _ hnd c hc2

/-- C1 witness: the partition invariant instantiated at the query Smith
with every fetch failing. -/
theorem scan_counties_partition_witness :
    ∃ resp : ScanOk,
      (scan_courts (some "Smith") urljoin0 netAllTimeout).body = ScanBody.okBody resp ∧
      resp.counties.length = COUNTY_URLS.length ∧
      ∀ c ∈ resp.counties,
        (c ∈ keys resp.results ∧ c ∉ keys resp.errors) ∨
        (c ∉ keys resp.results ∧ c ∈ keys resp.errors) :=
  scan_counties_partition "Smith" (by decide) urljoin0 netAllTimeout

/-- C7: once the name parameter is truthy the endpoint always answers
HTTP status 200, whatever the per-source outcomes are. -/
theorem scan_valid_query_status_200 (s : String) (hs : s ≠ "")
    (uj : String → String → String) (net : String → String → FetchOutcome) :
    (scan_courts (some s) uj net).status = 200 := by
  simp [scan_courts, isFalsy_some_eq_false hs]

/-- C7 witness: status 200 for the query Smith even though every single
configured source fails with a fetch error. -/
theorem scan_valid_query_status_200_witness :
    (scan_courts (some "Smith") urljoin0 netAllTimeout).status = 200 :=
  scan_valid_query_status_200 "Smith" (by decide) urljoin0 netAllTimeout

/-- C3 counterexample: a whitespace-only name parameter is NOT rejected.
The endpoint answers 200, and the response depends on the network
behaviour, so the source pipelines were dispatched. -/
theorem scan_whitespace_name_counterexample :
    (scan_courts (some " ") urljoin0 netAllTimeout).status = 200 ∧
    scan_courts (some " ") urljoin0 netAllTimeout ≠
      scan_courts (some " ") urljoin0 netNoRecords := by
  exact ⟨by decide, by decide⟩

/-- C3 as amended: for a missing or empty name parameter the endpoint
answers status 400 with a body holding the error field, and the response
is independent of the network, so no source pipeline is dispatched.
Whitespace-only names are not covered: they pass the truthiness check. -/
theorem scan_missing_or_empty_name_rejected (name : Option String)
    (h : isFalsyName name = true)
    (uj uj2 : String → String → String)
    (net net2 : String → String → FetchOutcome) :
    scan_courts name uj net =
      { body := ScanBody.errorBody MISSING_NAME_MSG, status := 400 } ∧
    "error" ∈ (scan_courts name uj net).body.fields ∧
    scan_courts name uj net = scan_courts name uj2 net2 := by
  refine ⟨by simp [scan_courts, h], ?_, by simp [scan_courts, h]⟩
  simp [scan_courts, h, ScanBody.fields]

/-- C3 witness: the amended rejection applied to a missing name, against
two different network behaviours. -/
theorem scan_missing_or_empty_name_rejected_witness :
    scan_courts none urljoin0 netAllTimeout =
      { body := ScanBody.errorBody MISSING_NAME_MSG, status := 400 } ∧
    "error" ∈ (scan_courts none urljoin0 netAllTimeout).body.fields ∧
    scan_courts none urljoin0 netAllTimeout = scan_courts none urljoin0 netNoRecords :=
  scan_missing_or_empty_name_rejected none rfl urljoin0 urljoin0 netAllTimeout netNoRecords

/-- C2 counterexample: on a page with no results table and no no-records
phrase, scrape_county returns the results variant with an empty list, not
the error variant, and the scan response files every county, Lee included,
under the results mapping with an empty list while the errors mapping
stays empty. -/
theorem structural_mismatch_in_results_counterexample :
    scrape_county "Lee" LEE_URL "Smith" urljoin0 netMismatch =
      ScrapeResult.results "Lee" [] ∧
    (scan_courts (some "Smith") urljoin0 netMismatch).body = ScanBody.okBody
      { query := "Smith",
        counties := ["Clarendon", "Lee", "Sumter", "Williamsburg"],
        results := [("Clarendon", []), ("Lee", []), ("Sumter", []), ("Williamsburg", [])],
        errors := [] } := by
  exact ⟨by decide, by decide⟩

/-- C2 as amended: when the fetched page has no results table and no
no-records phrase, the source outcome is the results variant with an empty
record list, byte-identical to the genuine no-records outcome; the
structural mismatch is only logged, never surfaced in the errors
mapping. -/
theorem scrape_structural_mismatch_empty_results (county url name : String)
    (uj : String → String → String) (net : String → String → FetchOutcome)
    (page : Page)
    (hnet : net url name = FetchOutcome.ok page)
    (htable : page.searchResultsTable = none)
    (hmsg : page.findNoRecordsMsg = false) :
    scrape_county county url name uj net = ScrapeResult.results county [] := by
  simp [scrape_county, hnet, htable, hmsg]

/-- C2 witness: the amended statement at the concrete mismatch page. -/
theorem scrape_structural_mismatch_empty_results_witness :
    scrape_county "Lee" LEE_URL "Smith" urljoin0 netMismatch =
      ScrapeResult.results "Lee" [] :=
  scrape_structural_mismatch_empty_results "Lee" LEE_URL "Smith" urljoin0
    netMismatch pageMismatch rfl rfl (by decide)

/-- C6: when a configured source serves a page with no results table whose
text carries the case-insensitive no-records phrase, that source appears
in the results mapping of the scan response with an empty record list, and
not in the errors mapping. -/
theorem scan_no_records_phrase_empty_results (s : String) (hs : s ≠ "")
    (uj : String → String → String) (net : String → String → FetchOutcome)
    (county url : String) (page : Page)
    (hcu : (county, url) ∈ COUNTY_URLS)
    (hnet : net url (normalizeName s) = FetchOutcome.ok page)
    (htable : page.searchResultsTable = none)
    (hmsg : page.findNoRecordsMsg = true) :
    ∃ resp : ScanOk, (scan_courts (some s) uj net).body = ScanBody.okBody resp ∧
      (county, ([] : List CaseRecord)) ∈ resp.results ∧
      county ∉ keys resp.errors := by
  have hfalsy := isFalsy_some_eq_false hs
  have hscrape : scrape_county county url (normalizeName s) uj net =
      ScrapeResult.results county [] := by
    simp [scrape_county, hnet, htable, hmsg]
  refine ⟨{ query := normalizeName s,
            counties := COUNTY_URLS.map Prod.fst,
            results := (mergeOutcomes (COUNTY_URLS.map
              (fun cu => (cu.1, scrape_county cu.1 cu.2 (normalizeName s) uj net)))).1,
            errors := (mergeOutcomes (COUNTY_URLS.map
              (fun cu => (cu.1, scrape_county cu.1 cu.2 (normalizeName s) uj net)))).2 },
         ?_, ?_, ?_⟩
  · simp [scan_courts, hfalsy]
  · have hmem : (county, scrape_county county url (normalizeName s) uj net) ∈
        COUNTY_URLS.map (fun cu => (cu.1, scrape_county cu.1 cu.2 (normalizeName s) uj net)) :=
      List.mem_map_of_mem (fun cu => (cu.1, scrape_county cu.1 cu.2 (normalizeName s) uj net)) hcu
    rw [hscrape] at hmem
    exact mergeOutcomes_mem_results _ county county [] hmem
  · have hmem : (county, scrape_county county url (normalizeName s) uj net) ∈
        COUNTY_URLS.map (fun cu => (cu.1, scrape_county cu.1 cu.2 (normalizeName s) uj net)) :=
      List.mem_map_of_mem (fun cu => (cu.1, scrape_county cu.1 cu.2 (normalizeName s) uj net)) hcu
    rw [hscrape] at hmem
    have hres : (county, ([] : List CaseRecord)) ∈ (mergeOutcomes (COUNTY_URLS.map
        (fun cu => (cu.1, scrape_county cu.1 cu.2 (normalizeName s) uj net)))).1 :=
      mergeOutcomes_mem_results _ county county [] hmem
    have hkeys := keys_map_pair COUNTY_URLS
      (fun cu => scrape_county cu.1 cu.2 (normalizeName s) uj net)
    have hnd : (keys (COUNTY_URLS.map
        (fun cu => (cu.1, scrape_county cu.1 cu.2 (normalizeName s) uj net)))).Nodup := by
      rw [hkeys]; exact county_keys_nodup
    intro herr
    exact mergeOutcomes_disjoint_keys _ hnd county
      (List.mem_map_of_mem Prod.fst hres) herr

/-- C6 witness: the query Smith against a network where every source
serves the no-records page puts Lee in the results mapping with an empty
list and keeps it out of the errors mapping. -/
theorem scan_no_records_phrase_empty_results_witness :
    ∃ resp : ScanOk,
      (scan_courts (some "Smith") urljoin0 netNoRecords).body = ScanBody.okBody resp ∧
      ("Lee", ([] : List CaseRecord)) ∈ resp.results ∧
      "Lee" ∉ keys resp.errors :=
  scan_no_records_phrase_empty_results "Smith" (by decide) urljoin0 netNoRecords
    "Lee" LEE_URL pageNoRecords (by decide) rfl rfl (by decide)

/-- C4: when the located row set of a found table is one header row
followed by R data rows each holding at least five cells, extraction
yields exactly R records, the image of the data rows in document order,
each record being the successful conversion of its row. -/
theorem extract_wellformed_rows (county url : String)
    (uj : String → String → String) (t : Table) (hd : Row) (ds : List Row)
    (hrows : t.locatedRows = hd :: ds)
    (hwf : ∀ r ∈ ds, 5 ≤ r.cells.length) :
    ∃ f : Row → CaseRecord,
      extractRecords county url uj t = ds.map f ∧
      (extractRecords county url uj t).length = ds.length ∧
      ∀ r ∈ ds, parseRow county url uj r = some (f r) := by
  have hsome : ∀ r ∈ ds, parseRow county url uj r =
      some ((fun r => (parseRow county url uj r).getD default) r) := by
    intro r hr
    obtain ⟨rec, hrec⟩ := Option.isSome_iff_exists.mp
      (parseRow_isSome county url uj r (hwf r hr))
    simp [hrec]
  have hext : extractRows (hd :: ds) = ds := by
    cases ds with
    | nil => simp [extractRows]
    | cons a l =>
      have hgt : (hd :: a :: l).length > 1 := by
        simp only [List.length_cons]
        omega
      simp only [extractRows]
      rw [if_pos hgt]
      rfl
  have hmap : extractRecords county url uj t =
      ds.map (fun r => (parseRow county url uj r).getD default) := by
    rw [extractRecords, hrows, hext]
    exact filterMap_eq_map_of_some _ _ ds hsome
  refine ⟨fun r => (parseRow county url uj r).getD default, hmap, ?_, hsome⟩
  rw [hmap]
  exact List.length_map ds _

/-- C4 witness: a table of one header row and one well-formed data row
extracts to exactly that one record in place. -/
theorem extract_wellformed_rows_witness :
    ∃ f : Row → CaseRecord,
      extractRecords "Lee" LEE_URL urljoin0 sampleTable = [sampleRow].map f ∧
      (extractRecords "Lee" LEE_URL urljoin0 sampleTable).length = [sampleRow].length ∧
      ∀ r ∈ [sampleRow], parseRow "Lee" LEE_URL urljoin0 r = some (f r) :=
  extract_wellformed_rows "Lee" LEE_URL urljoin0 sampleTable headerRow [sampleRow]
    rfl (by decide)

/-- C5: a row with fewer than five cells converts to no record, and
removing it from the located row set does not change the extracted record
list: the malformed row is skipped and extraction of the remaining rows
continues. -/
theorem malformed_row_skipped (county url : String)
    (uj : String → String → String) (hd bad : Row) (ds1 ds2 : List Row)
    (hbad : bad.cells.length < 5) :
    parseRow county url uj bad = none ∧
    extractRecords county url uj { tbody := none, allRows := hd :: (ds1 ++ bad :: ds2) } =
      extractRecords county url uj { tbody := none, allRows := hd :: (ds1 ++ ds2) } := by
  have hnone := parseRow_short county url uj bad hbad
  refine ⟨hnone, ?_⟩
  have hL : extractRows (hd :: (ds1 ++ bad :: ds2)) = ds1 ++ bad :: ds2 := by
    have hgt : (hd :: (ds1 ++ bad :: ds2)).length > 1 := by
      simp only [List.length_cons, List.length_append]
      omega
    simp only [extractRows]
    rw [if_pos hgt]
    rfl
  have hR : List.filterMap (parseRow county url uj) (extractRows (hd :: (ds1 ++ ds2))) =
      List.filterMap (parseRow county url uj) (ds1 ++ ds2) := by
    cases h : ds1 ++ ds2 with
    | nil => simp [extractRows, h]
    | cons a l =>
      have hgt : (hd :: a :: l).length > 1 := by
        simp only [List.length_cons]
        omega
      simp only [extractRows, h]
      rw [if_pos hgt]
      rfl
  show List.filterMap (parseRow county url uj)
      (extractRows (Table.locatedRows { tbody := none, allRows := hd :: (ds1 ++ bad :: ds2) })) =
    List.filterMap (parseRow county url uj)
      (extractRows (Table.locatedRows { tbody := none, allRows := hd :: (ds1 ++ ds2) }))
  simp only [Table.locatedRows]
  rw [hL, hR]
  simp [List.filterMap_append, List.filterMap_cons, hnone]

/-- C5 witness: the four-cell row is skipped between a header row and a
well-formed row. -/
theorem malformed_row_skipped_witness :
    parseRow "Lee" LEE_URL urljoin0 badRow = none ∧
    extractRecords "Lee" LEE_URL urljoin0
        { tbody := none, allRows := headerRow :: ([sampleRow] ++ badRow :: []) } =
      extractRecords "Lee" LEE_URL urljoin0
        { tbody := none, allRows := headerRow :: ([sampleRow] ++ []) } :=
  malformed_row_skipped "Lee" LEE_URL urljoin0 headerRow badRow [sampleRow] [] (by decide)

/-- C9: when the located row set holds exactly one row, extraction yields
no records: the sole row is discarded as the presumed header. -/
theorem single_located_row_yields_no_records (county url : String)
    (uj : String → String → String) (t : Table) (r : Row)
    (h : t.locatedRows = [r]) :
    extractRecords county url uj t = [] := by
  rw [extractRecords, h]
  rfl

/-- C9 witness: a single located row that is well-formed, with five cells,
still extracts to nothing. -/
theorem single_located_row_yields_no_records_witness :
    5 ≤ sampleRow.cells.length ∧
    extractRecords "Lee" LEE_URL urljoin0 singleRowTable = [] :=
  ⟨by decide, single_located_row_yields_no_records "Lee" LEE_URL urljoin0
    singleRowTable sampleRow rfl⟩

/-- C10: a well-formed data row whose first cell has no anchor converts to
a record whose url is none, not a defaulted endpoint, and whose case
number is the stripped full text of that cell. -/
theorem no_link_row_null_url (county url : String)
    (uj : String → String → String) (c0 c1 c2 c3 c4 : Cell) (rest : List Cell)
    (hlink : c0.link = none) :
    ∃ rec : CaseRecord,
      parseRow county url uj { cells := c0 :: c1 :: c2 :: c3 :: c4 :: rest } = some rec ∧
      rec.url = none ∧ rec.caseNumber = c0.getTextStrip := by
  refine ⟨{ county := county, caseNumber := c0.getTextStrip,
            date := c1.getTextStrip, party := c2.getTextStrip,
            caseType := c3.getTextStrip, status := c4.getTextStrip,
            url := none }, ?_, rfl, rfl⟩
  have hlen : ¬ (({ cells := c0 :: c1 :: c2 :: c3 :: c4 :: rest } : Row).cells.length < 5) := by
    simp only [List.length_cons]
    omega
  simp only [parseRow]
  rw [if_neg hlen]
  simp [hlink]

/-- C10 witness: the anchor-free row converts with a null url and the
stripped cell text as case number. -/
theorem no_link_row_null_url_witness :
    ∃ rec : CaseRecord,
      parseRow "Lee" LEE_URL urljoin0 noLinkRow = some rec ∧
      rec.url = none ∧
      rec.caseNumber = ({ text := " 2023-CP-31-0100 ", link := none } : Cell).getTextStrip :=
  no_link_row_null_url "Lee" LEE_URL urljoin0
    { text := " 2023-CP-31-0100 ", link := none }
    { text := "03/04/2023", link := none }
    { text := "Jane Doe", link := none }
    { text := "Civil", link := none }
    { text := "Closed", link := none } [] rfl

/-- C8 counterexample: the record extracted from the sample row serializes
with a county key, so its key list is not the six-field list the claim
states. -/
theorem record_six_fields_counterexample :
    parseRow "Lee" LEE_URL urljoin0 sampleRow = some sampleRecord ∧
    "county" ∈ sampleRecord.toJson.map Prod.fst ∧
    sampleRecord.toJson.map Prod.fst ≠
      ["caseNumber", "date", "party", "type", "status", "url"] := by
  exact ⟨by decide, by decide, by decide⟩

/-- C8 as amended: every record serializes with exactly the seven keys
county, caseNumber, date, party, type, status and url, in that order; the
first six values are strings and the url value is a string or null. -/
theorem record_toJson_seven_fields (rec : CaseRecord) :
    rec.toJson.map Prod.fst =
      ["county", "caseNumber", "date", "party", "type", "status", "url"] ∧
    rec.toJson.map Prod.snd =
      [JsonVal.str rec.county, JsonVal.str rec.caseNumber, JsonVal.str rec.date,
       JsonVal.str rec.party, JsonVal.str rec.caseType, JsonVal.str rec.status,
       (match rec.url with | some u => JsonVal.str u | none => JsonVal.null)] :=
  ⟨rfl, rfl⟩

end ScCourtScraper
